import Mathlib

/-!
Verification of the QPlay-Core backend (`src/backend/production_server.py`).

The server is a stateless Flask request handler: each route reads the JSON
request body, issues zero or more outbound HTTP calls to the Supabase REST
store, and returns a JSON envelope.  We embed each route handler as a pure
Lean function over:

* the parsed request body (a record of `Option` fields, since the Python code
  reads fields with `dict.get` and tolerates absence), and
* a "store" record giving the outcome of each outbound call that the handler
  can make.  An outbound `requests` call either raises (connection error,
  invalid URL, ...) or returns a response with a status code and a JSON body;
  we model that as the `Outcome` type below.  Python `try/except` blocks
  around a call become a `match` on its `Outcome`.

Responses are modelled as records mirroring the JSON bodies the handlers
build with `jsonify`, plus the HTTP status code (Flask defaults to 200 when
the handler returns a bare `jsonify(...)`; `(jsonify(...), n)` returns n).
Exception messages interpolated from `str(e)` are abstracted to fixed
strings, since no claim depends on their text.
-/

set_option autoImplicit false

/-- Outcome of one outbound `requests` call: either the call raised an
exception, or it returned a response with a status code and a parsed JSON
body of type `α`. -/
inductive Outcome (α : Type) where
  | exn : Outcome α
  | resp : Nat → α → Outcome α
deriving DecidableEq

/-! ## Leaderboard endpoints

`GET /api/leaderboard/score` (`get_score_leaderboard`, lines 258-333) and
`GET /api/leaderboard/speed` (`get_speed_leaderboard`, lines 335-385).
-/

/-- A row of the `leaderboard_entries` table as returned by the store: the
fields the handlers read or carry through.  (`user_id` is used for the
per-row `users` lookup; the remaining row fields ride along in the entry
dict unchanged.) -/
structure LBRow where
  user_id : String
  total_score : Int
  completion_time : Option Int
  difficulty : String
deriving DecidableEq

/-- Result row of the per-entry `users?id=eq.{user_id}&select=username,full_name`
lookup: only the two selected display fields. -/
structure UserNames where
  username : String
  full_name : String
deriving DecidableEq

/-- A row of the `users` table as used by the score fallback tier: every
field is read with `user.get(...)`, so each is optional. -/
structure UserRow where
  username : Option String
  full_name : Option String
  total_score : Option Int
  best_completion_time : Option Int
  games_completed : Option Int
  quantum_mastery_level : Option Int
deriving DecidableEq

/-- One element of the `entries` list in a leaderboard response.  The entry
is a Python dict, so any field other than `rank` (which every tier sets) may
be absent; absence is `none`. -/
structure Entry where
  rank : Nat
  user_id : Option String := none
  username : Option String := none
  full_name : Option String := none
  total_score : Option Int := none
  completion_time : Option Int := none
  games_completed : Option Int := none
  quantum_mastery_level : Option Int := none
  difficulty : Option String := none
deriving DecidableEq

/-- A leaderboard response body plus its HTTP status.  Both handlers return
bare `jsonify(...)` on every path, so `status` is always 200. -/
structure LBResponse where
  entries : List Entry
  type : String
  source : String
  status : Nat
deriving DecidableEq

/-- The entry dict for a `leaderboard_entries` row after `entry["rank"] = i + 1`
(0-based index `i`), before the optional `users` enrichment. -/
def entryOfRow (i : Nat) (r : LBRow) : Entry :=
  { rank := i + 1
    user_id := some r.user_id
    total_score := some r.total_score
    completion_time := r.completion_time
    difficulty := some r.difficulty }

/-- One iteration of the enrichment loop: look the row's user up in `users`;
if that lookup returns 200 with a non-empty list, merge `username` and
`full_name` into the entry (`entry.update(user_data)`).  If the lookup
raises, the exception propagates to the handler's `except` clause, modelled
as `.error ()`. -/
def enrichRow (userCall : String → Outcome (List UserNames)) (i : Nat) (r : LBRow) :
    Except Unit Entry :=
  match userCall r.user_id with
  | .exn => .error ()
  | .resp st users =>
    if st = 200 then
      match users with
      | [] => .ok (entryOfRow i r)
      | u :: _ => .ok { entryOfRow i r with username := some u.username, full_name := some u.full_name }
    else .ok (entryOfRow i r)

/-- The enrichment loop `for i, entry in enumerate(leaderboard_data)`,
starting at index `i`. -/
def enrichFrom (userCall : String → Outcome (List UserNames)) :
    Nat → List LBRow → Except Unit (List Entry)
  | _, [] => .ok []
  | i, r :: rs =>
    match enrichRow userCall i r with
    | .error e => .error e
    | .ok ent =>
      match enrichFrom userCall (i + 1) rs with
      | .error e => .error e
      | .ok rest => .ok (ent :: rest)

/-- The full enrichment loop over the tier-1 rows (`enumerate` starts at 0). -/
def enrichEntries (userCall : String → Outcome (List UserNames)) (rows : List LBRow) :
    Except Unit (List Entry) :=
  enrichFrom userCall 0 rows

/-- The score fallback tier: `for i, user in enumerate(users)` builds one
entry per user row, reading each field with a `.get` default. -/
def userStatsFrom : Nat → List UserRow → List Entry
  | _, [] => []
  | i, u :: us =>
    { rank := i + 1
      username := some (u.username.getD "Unknown")
      full_name := some (u.full_name.getD "")
      total_score := some (u.total_score.getD 0)
      completion_time := u.best_completion_time
      games_completed := some (u.games_completed.getD 0)
      quantum_mastery_level := some (u.quantum_mastery_level.getD 1) } :: userStatsFrom (i + 1) us

/-- The `mock_leaderboard` built from the `users` table in the score
endpoint's second tier. -/
def scoreUserStatsEntries (users : List UserRow) : List Entry :=
  userStatsFrom 0 users

/-- Final-fallback demo entries of the score endpoint (lines 315-319),
returned inside the `try` block when the `users` fallback query comes back
non-200. -/
def demoScoreEntries : List Entry :=
  [ { rank := 1, username := some "QuantumAlice", total_score := some 4500,
      completion_time := some 180, games_completed := some 15 },
    { rank := 2, username := some "EntangleCharlie", total_score := some 3200,
      completion_time := some 200, games_completed := some 12 },
    { rank := 3, username := some "SuperpositionBob", total_score := some 2800,
      completion_time := some 240, games_completed := some 8 } ]

/-- Demo entries of the score endpoint's `except` clause (lines 327-330),
returned when any outbound call in the handler raises. -/
def demoScoreErrEntries : List Entry :=
  [ { rank := 1, username := some "QuantumAlice", total_score := some 4500,
      completion_time := some 180 },
    { rank := 2, username := some "EntangleCharlie", total_score := some 3200,
      completion_time := some 200 } ]

/-- Demo entries of the speed endpoint (lines 368-372), returned inside the
`try` block when the tier-1 query is non-200 or yields no entries. -/
def demoSpeedEntries : List Entry :=
  [ { rank := 1, user_id := some "demo-user-1", username := some "SpeedyQuantum",
      full_name := some "Speedy Player", total_score := some 1200,
      completion_time := some 180, difficulty := some "hard" },
    { rank := 2, user_id := some "demo-user-2", username := some "FastAlice",
      full_name := some "Alice Cooper", total_score := some 1000,
      completion_time := some 220, difficulty := some "medium" },
    { rank := 3, user_id := some "demo-user-3", username := some "QuickBob",
      full_name := some "Bob Wilson", total_score := some 800,
      completion_time := some 260, difficulty := some "easy" } ]

/-- Demo entries of the speed endpoint's `except` clause (lines 379-381). -/
def demoSpeedErrEntries : List Entry :=
  [ { rank := 1, user_id := some "demo-user-1", username := some "SpeedyQuantum",
      full_name := some "Speedy Player", total_score := some 1200,
      completion_time := some 180, difficulty := some "hard" },
    { rank := 2, user_id := some "demo-user-2", username := some "FastAlice",
      full_name := some "Alice Cooper", total_score := some 1000,
      completion_time := some 220, difficulty := some "medium" } ]

/-- Outcomes of the outbound calls that `get_score_leaderboard` can make:
the `leaderboard_entries` query, the per-row `users` lookup (a function of
the row's `user_id`), and the fallback `users?order=total_score.desc` query. -/
structure ScoreStore where
  lbCall : Outcome (List LBRow)
  userCall : String → Outcome (List UserNames)
  usersCall : Outcome (List UserRow)

/-- Outcomes of the outbound calls that `get_speed_leaderboard` can make:
the `leaderboard_entries` query and the per-row `users` lookup.  The speed
handler makes no query of the `users` table as a fallback tier. -/
structure SpeedStore where
  lbCall : Outcome (List LBRow)
  userCall : String → Outcome (List UserNames)

/-- Code reached when tier 1 of the score endpoint responds but yields no
usable entries (lines 291-322): query `users` ordered by `total_score`; on
200 return the derived ranking, on any other status return the demo
entries; a raise propagates to the handler's `except` clause, which returns
the two-entry demo list. -/
def scoreFallback (s : ScoreStore) : LBResponse :=
  match s.usersCall with
  | .exn => { entries := demoScoreErrEntries, type := "score", source := "demo", status := 200 }
  | .resp st users =>
    if st = 200 then
      { entries := scoreUserStatsEntries users, type := "score", source := "user_stats", status := 200 }
    else
      { entries := demoScoreEntries, type := "score", source := "demo", status := 200 }

/-- `GET /api/leaderboard/score` (lines 258-333). -/
def get_score_leaderboard (s : ScoreStore) : LBResponse :=
  match s.lbCall with
  | .exn => { entries := demoScoreErrEntries, type := "score", source := "demo", status := 200 }
  | .resp st rows =>
    if st = 200 then
      match enrichEntries s.userCall rows with
      | .error _ =>
        { entries := demoScoreErrEntries, type := "score", source := "demo", status := 200 }
      | .ok [] => scoreFallback s
      | .ok (e :: es) =>
        { entries := e :: es, type := "score", source := "database", status := 200 }
    else scoreFallback s

/-- `GET /api/leaderboard/speed` (lines 335-385). -/
def get_speed_leaderboard (s : SpeedStore) : LBResponse :=
  match s.lbCall with
  | .exn => { entries := demoSpeedErrEntries, type := "speed", source := "demo", status := 200 }
  | .resp st rows =>
    if st = 200 then
      match enrichEntries s.userCall rows with
      | .error _ =>
        { entries := demoSpeedErrEntries, type := "speed", source := "demo", status := 200 }
      | .ok [] =>
        { entries := demoSpeedEntries, type := "speed", source := "demo", status := 200 }
      | .ok (e :: es) =>
        { entries := e :: es, type := "speed", source := "database", status := 200 }
    else
      { entries := demoSpeedEntries, type := "speed", source := "demo", status := 200 }

/-! ## Tier characterization of the leaderboard sources

For the fallback-ordering claim we characterize which `source` tag each
store outcome produces, stated in the order the tiers are consulted. -/

/-- Source tag produced by the score endpoint once tier 1 has responded but
yielded no usable entries: `user_stats` exactly when the `users` fallback
query returns 200, `demo` otherwise. -/
def scoreFallbackSource (s : ScoreStore) : String :=
  match s.usersCall with
  | .exn => "demo"
  | .resp st _ => if st = 200 then "user_stats" else "demo"

/-- Source tag of the score endpoint: `database` when the tier-1 query
returns 200 with entries and every per-row lookup returns; otherwise the
fallback source, except that any raised call yields `demo` directly. -/
def scoreSource (s : ScoreStore) : String :=
  match s.lbCall with
  | .exn => "demo"
  | .resp st rows =>
    if st = 200 then
      match enrichEntries s.userCall rows with
      | .error _ => "demo"
      | .ok [] => scoreFallbackSource s
      | .ok (_ :: _) => "database"
    else scoreFallbackSource s

/-- Source tag of the speed endpoint: `database` when the tier-1 query
returns 200 with entries and every per-row lookup returns, `demo` in every
other case.  There is no `user_stats` tier. -/
def speedSource (s : SpeedStore) : String :=
  match s.lbCall with
  | .exn => "demo"
  | .resp st rows =>
    if st = 200 then
      match enrichEntries s.userCall rows with
      | .error _ => "demo"
      | .ok [] => "demo"
      | .ok (_ :: _) => "database"
    else "demo"

/-! ## `GET /` and `GET /health` -/

/-- Body of the `GET /` response (`root`, lines 52-59). -/
structure RootResponse where
  message : String
  version : String
  supabase_connected : Bool
deriving DecidableEq

/-- `GET /` (lines 52-59): a constant body.  The handler consults neither
the configuration flags nor the store. -/
def root : RootResponse :=
  { message := "Quantum Quest Backend is running!"
    version := "1.0.0"
    supabase_connected := true }

/-- Body of the `GET /health` response (`health_check`, lines 61-76). -/
structure HealthResponse where
  status : String
  quantum_engine : String
  database : String
  websockets : String
deriving DecidableEq

/-- `GET /health` (lines 61-76).  The handler issues one probe
`users?select=count` call whose body it never reads, so the outcome body is
`Unit`. -/
def health_check (dbCall : Outcome Unit) : HealthResponse :=
  { status := "healthy"
    quantum_engine := "operational"
    database :=
      match dbCall with
      | .exn => "disconnected"
      | .resp st _ => if st = 200 then "connected" else "error"
    websockets := "active" }

/-! ## `GET /api/game/rooms` -/

/-- One room of the static `GET /api/game/rooms` body (lines 90-99). -/
structure Room where
  id : String
  name : String
  difficulty : String
  unlocked : Bool
deriving DecidableEq

/-- `GET /api/game/rooms` (lines 90-99): a constant body, no outbound call. -/
def get_rooms : List Room :=
  [ { id := "superposition", name := "Superposition Tower", difficulty := "easy", unlocked := true },
    { id := "entanglement", name := "Entanglement Bridge", difficulty := "medium", unlocked := false },
    { id := "tunneling", name := "Tunneling Vault", difficulty := "hard", unlocked := false } ]

/-! ## `GET /api/users` -/

/-- A `users` row as passed through by `GET /api/users`; the handler never
looks inside the rows, it only counts them.  We reuse `UserRow`. -/
inductive UsersResult where
  /-- 200 with `{"users": users, "count": len(users)}`. -/
  | ok (users : List UserRow) (count : Nat)
  /-- `{"error": "Database error: <st>"}` returned with status `st`. -/
  | dbError (st : Nat)
  /-- `{"error": str(e)}` with status 500, from the `except` clause. -/
  | exnError
deriving DecidableEq

/-- `GET /api/users` (`get_users`, lines 388-402). -/
def get_users (call : Outcome (List UserRow)) : UsersResult :=
  match call with
  | .exn => .exnError
  | .resp st users => if st = 200 then .ok users users.length else .dbError st

/-- HTTP status of a `GET /api/users` result. -/
def usersStatus : UsersResult → Nat
  | .ok _ _ => 200
  | .dbError st => st
  | .exnError => 500

/-- Whether a `GET /api/users` result is an error body (`{"error": ...}`). -/
def usersIsError : UsersResult → Bool
  | .ok _ _ => false
  | .dbError _ => true
  | .exnError => true

/-! ## `POST /api/auth/signup` -/

/-- Parsed request body of `signup`; each field is read with `data.get`. -/
structure SignupData where
  email : Option String
  username : Option String
  full_name : Option String
deriving DecidableEq

/-- A `users` row as the signup existence check and creation response
return it; the handler only reads `user.get("id")`. -/
structure SUser where
  id : Option String
deriving DecidableEq

/-- Outcomes of the outbound calls that `signup` can make: the existence
check `users?email=eq.{email}`, the `POST /users` creation, and the
`POST /leaderboard_entries` insert. -/
structure SignupStore where
  checkCall : Outcome (List SUser)
  createCall : Outcome (List SUser)
  lbCall : Outcome Unit

/-- Labels of the write (POST) calls that `signup` can issue, for the
outbound-write trace. -/
inductive StoreWrite where
  | postUsers
  | postLeaderboard
deriving DecidableEq

/-- Response envelope of `signup`: success flag, HTTP status, and the fixed
error text (exception texts `f"Signup failed: {e}"` are abstracted to
`"Signup failed"`). -/
structure SignupResp where
  success : Bool
  status : Nat
  errorMsg : Option String
deriving DecidableEq

/-- `POST /api/auth/signup` (lines 117-194), paired with the trace of write
calls it issued.  The existence check raising hits the outer `except`
(500) before any write; a 200 check with a non-empty user list returns the
400 failure before any write; otherwise the user POST is issued, and on
200/201 the leaderboard insert is attempted with its outcome swallowed
(`try/except: pass`).  The request body only feeds the outbound payloads
and the user echo, which no response field modelled here depends on. -/
def signup (_d : SignupData) (s : SignupStore) : SignupResp × List StoreWrite :=
  match s.checkCall with
  | .exn => ({ success := false, status := 500, errorMsg := some "Signup failed" }, [])
  | .resp st users =>
    if st = 200 ∧ users ≠ [] then
      ({ success := false, status := 400, errorMsg := some "User already exists" }, [])
    else
      match s.createCall with
      | .exn =>
        ({ success := false, status := 500, errorMsg := some "Signup failed" }, [.postUsers])
      | .resp st2 _ =>
        if st2 = 200 ∨ st2 = 201 then
          match s.lbCall with
          | _ => ({ success := true, status := 200, errorMsg := none },
                  [.postUsers, .postLeaderboard])
        else
          ({ success := false, status := 500, errorMsg := some "Failed to create user" },
           [.postUsers])

/-! ## `POST /api/auth/login` -/

/-- Parsed request body of `login`: only `email` is read before the
outbound calls. -/
structure LoginData where
  email : Option String
deriving DecidableEq

/-- A `users` row as `login` returns it; `user["id"]` is used for the
optional `last_login` patch, whose failure (including a missing id) is
swallowed. -/
structure LUser where
  id : Option String
  email : Option String
deriving DecidableEq

/-- Outcomes of the outbound calls that `login` can make: the user lookup
`users?email=eq.{email}` and the optional `last_login` patch. -/
structure LoginStore where
  findCall : Outcome (List LUser)
  patchCall : Outcome Unit

/-- Labels of the outbound calls that `login` can issue, for the
no-outbound-call trace. -/
inductive LoginCallTag where
  | findUser
  | patchLastLogin
deriving DecidableEq

/-- Response envelope of `login` (exception texts abstracted to
`"Login failed"`). -/
structure LoginResp where
  success : Bool
  status : Nat
  user : Option LUser
  errorMsg : Option String
deriving DecidableEq

/-- Python truthiness test `if not email:` on the value of
`data.get("email")`: true when the key is missing or null (`none`) or the
string is empty. -/
def falsyEmail : Option String → Bool
  | none => true
  | some s => s = ""

/-- `POST /api/auth/login` (lines 196-248), paired with the trace of
outbound calls it issued.  A falsy email returns the 400 failure before any
outbound call; the `last_login` patch outcome is swallowed
(`try/except` around the patch). -/
def login (d : LoginData) (s : LoginStore) : LoginResp × List LoginCallTag :=
  if falsyEmail d.email then
    ({ success := false, status := 400, user := none, errorMsg := some "Email is required" }, [])
  else
    match s.findCall with
    | .exn =>
      ({ success := false, status := 500, user := none, errorMsg := some "Login failed" },
       [.findUser])
    | .resp st users =>
      if st = 200 then
        match users with
        | [] =>
          ({ success := false, status := 404, user := none, errorMsg := some "User not found" },
           [.findUser])
        | u :: _ =>
          match s.patchCall with
          | _ => ({ success := true, status := 200, user := some u, errorMsg := none },
                  [.findUser, .patchLastLogin])
      else
        ({ success := false, status := 500, user := none,
           errorMsg := some "Database connection failed" }, [.findUser])

/-! ## `POST /api/game/complete` -/

/-- Parsed request body of `complete_game`; every field is read with
`data.get` and a default. -/
structure CompleteData where
  user_id : Option String
  session_id : Option String
  completion_time : Option Int
  total_score : Option Int
  difficulty : Option String
  rooms_completed : Option Int
  hints_used : Option Int
  current_games_completed : Option Int
  current_total_score : Option Int
  current_total_playtime : Option Int
deriving DecidableEq

/-- The `leaderboard_entry` dict that `complete_game` builds (lines
525-535) and echoes in its response; `now` is the
`datetime.now(timezone.utc).isoformat()` timestamp. -/
structure LeaderboardInsert where
  user_id : Option String
  session_id : Option String
  category : String
  completion_time : Int
  total_score : Int
  difficulty : String
  rooms_completed : Int
  hints_used : Int
  achieved_at : String
deriving DecidableEq

/-- Builds the `leaderboard_entry` dict from the request body, applying the
`data.get` defaults (`completion_time` 300, `total_score` 1000,
`difficulty` "easy", `rooms_completed` 1, `hints_used` 0). -/
def mkLeaderboardEntry (d : CompleteData) (now : String) : LeaderboardInsert :=
  { user_id := d.user_id
    session_id := d.session_id
    category := "total_score"
    completion_time := d.completion_time.getD 300
    total_score := d.total_score.getD 1000
    difficulty := d.difficulty.getD "easy"
    rooms_completed := d.rooms_completed.getD 1
    hints_used := d.hints_used.getD 0
    achieved_at := now }

/-- Response envelope of `complete_game` (lines 559-565). -/
structure CompleteResp where
  success : Bool
  message : String
  score : Int
  time : Int
  leaderboard_entry : LeaderboardInsert
  status : Nat
deriving DecidableEq

/-- `POST /api/game/complete` (lines 483-568).  The three side writes - the
user-stats patch, the leaderboard insert, and the session patch - are each
wrapped in `try/except: pass` and their statuses are never read, so each
outcome is matched and discarded. -/
def complete_game (d : CompleteData) (now : String)
    (userPatch lbPost sessionPatch : Outcome Unit) : CompleteResp :=
  match userPatch, lbPost, sessionPatch with
  | _, _, _ =>
    { success := true
      message := "Game completed successfully!"
      score := d.total_score.getD 1000
      time := d.completion_time.getD 300
      leaderboard_entry := mkLeaderboardEntry d now
      status := 200 }

/-! ## `POST /api/game/save-progress` -/

/-- Parsed request body of `save_progress`; the room maps are abstracted to
opaque strings since the handler only forwards them. -/
structure ProgressData where
  session_id : Option String
  current_room : Option String
  room_times : Option String
  room_attempts : Option String
  room_scores : Option String
deriving DecidableEq

/-- Response envelope of `save_progress`. -/
structure SaveResp where
  success : Bool
  message : String
  status : Nat
deriving DecidableEq

/-- `POST /api/game/save-progress` (lines 570-602).  The session patch is
wrapped in `try/except: pass` and its status is never read; the request
body only feeds the patch payload. -/
def save_progress (_d : ProgressData) (patchCall : Outcome Unit) : SaveResp :=
  match patchCall with
  | _ => { success := true, message := "Progress saved", status := 200 }

/-! ## Concrete stores and request bodies used by counterexamples and
witnesses -/

/-- Score store in which both the tier-1 query and the `users` fallback
query return 200 with an empty list. -/
def emptyTiersScoreStore : ScoreStore :=
  { lbCall := .resp 200 [], userCall := fun _ => .exn, usersCall := .resp 200 [] }

/-- A healthy `users` row. -/
def sampleUserRow : UserRow :=
  { username := some "RealPlayer", full_name := some "Real Player",
    total_score := some 900, best_completion_time := some 210,
    games_completed := some 4, quantum_mastery_level := some 2 }

/-- Score store whose tier-1 query raises while the `users` fallback query
would return 200 with one row. -/
def exnTier1ScoreStore : ScoreStore :=
  { lbCall := .exn, userCall := fun _ => .exn, usersCall := .resp 200 [sampleUserRow] }

/-- Speed store whose tier-1 query returns 200 with no rows. -/
def emptyTier1SpeedStore : SpeedStore :=
  { lbCall := .resp 200 [], userCall := fun _ => .resp 200 [] }

/-- Score store in which every outbound call raises, as happens when the
store environment variables are absent: `SUPABASE_REST_URL` is `""`, each
`requests` call targets a schemeless URL such as `"/rest/v1/users"`, and
`requests` raises `MissingSchema` before any network traffic. -/
def noStoreScoreStore : ScoreStore :=
  { lbCall := .exn, userCall := fun _ => .exn, usersCall := .exn }

/-- Speed store in which every outbound call raises (store unconfigured). -/
def noStoreSpeedStore : SpeedStore :=
  { lbCall := .exn, userCall := fun _ => .exn }

/-- A signup request body. -/
def sampleSignupData : SignupData :=
  { email := some "alice@example.com", username := some "alice", full_name := some "Alice" }

/-- Signup store whose existence check finds one user with the requested
email. -/
def existingUserSignupStore : SignupStore :=
  { checkCall := .resp 200 [{ id := some "u-1" }], createCall := .exn, lbCall := .exn }

/-- A login request body with a present email. -/
def sampleLoginData : LoginData :=
  { email := some "alice@example.com" }

/-- A `users` row found by login. -/
def sampleLUser : LUser :=
  { id := some "u-1", email := some "alice@example.com" }

/-- A game-completion request body. -/
def sampleCompleteData : CompleteData :=
  { user_id := some "u-1", session_id := some "s-1", completion_time := some 222,
    total_score := some 1500, difficulty := some "medium", rooms_completed := some 3,
    hints_used := some 1, current_games_completed := some 4,
    current_total_score := some 900, current_total_playtime := some 1000 }

/-- A save-progress request body. -/
def sampleProgressData : ProgressData :=
  { session_id := some "s-1", current_room := some "entanglement",
    room_times := some "rt", room_attempts := some "ra", room_scores := some "rs" }

/-! ## Rank helpers -/

/-- The `entries` list carries consecutive 1-based ranks: the entry at
0-based index `i` has `rank = i + 1`. -/
def rankedEntries (es : List Entry) : Prop :=
  ∀ (i : Nat) (h : i < es.length), (es.get ⟨i, h⟩).rank = i + 1

/-- Executable check that a list of entries carries ranks `n, n+1, ...`. -/
def ranksFrom (n : Nat) : List Entry → Bool
  | [] => true
  | e :: es => e.rank == n && ranksFrom (n + 1) es

/-! ## Helper lemmas -/

/-- Every successful iteration of the enrichment loop leaves `rank = i + 1`
in place: the per-row `users` lookup selects only `username` and
`full_name`, so `entry.update` cannot overwrite `rank`. -/
theorem enrichRow_rank (uc : String → Outcome (List UserNames)) (i : Nat) (r : LBRow)
    (e : Entry) (h : enrichRow uc i r = Except.ok e) : e.rank = i + 1 := by
  unfold enrichRow at h
  cases huc : uc r.user_id with
  | exn => simp only [huc] at h; exact Except.noConfusion h
  | resp st users =>
    simp only [huc] at h
    by_cases hst : st = 200
    · rw [if_pos hst] at h
      cases users with
      | nil =>
        have he : entryOfRow i r = e := by simpa using h
        rw [← he]; rfl
      | cons u tl =>
        have he : { entryOfRow i r with
            username := some u.username, full_name := some u.full_name } = e := by
          simpa using h
        rw [← he]; rfl
    · rw [if_neg hst] at h
      have he : entryOfRow i r = e := by simpa using h
      rw [← he]; rfl

/-- A successful enrichment loop started at index `i` numbers the produced
entries `i + 1, i + 2, ...`. -/
theorem enrichFrom_rank (uc : String → Outcome (List UserNames)) (rows : List LBRow) :
    ∀ (i : Nat) (es : List Entry), enrichFrom uc i rows = Except.ok es →
      ∀ (j : Nat) (h : j < es.length), (es.get ⟨j, h⟩).rank = i + j + 1 := by
  induction rows with
  | nil =>
    intro i es heq j h
    have he : ([] : List Entry) = es := by simpa [enrichFrom] using heq
    subst he
    exact absurd h (by simp)
  | cons r rs ih =>
    intro i es heq j h
    simp only [enrichFrom] at heq
    cases hrow : enrichRow uc i r with
    | error e0 => simp only [hrow] at heq; exact Except.noConfusion heq
    | ok ent =>
      simp only [hrow] at heq
      cases hrest : enrichFrom uc (i + 1) rs with
      | error e0 => simp only [hrest] at heq; exact Except.noConfusion heq
      | ok rest =>
        simp only [hrest] at heq
        have hes : ent :: rest = es := by simpa using heq
        subst hes
        cases j with
        | zero =>
          have := enrichRow_rank uc i r ent hrow
          simpa using this
        | succ j =>
          have h2 : j < rest.length := by simpa using h
          have hih := ih (i + 1) rest hrest j h2
          have hget : ((ent :: rest).get ⟨j + 1, h⟩) = rest.get ⟨j, h2⟩ := rfl
          rw [hget, hih]
          omega

/-- The score fallback tier started at index `i` numbers the produced
entries `i + 1, i + 2, ...`. -/
theorem userStatsFrom_rank (us : List UserRow) :
    ∀ (i j : Nat) (h : j < (userStatsFrom i us).length),
      ((userStatsFrom i us).get ⟨j, h⟩).rank = i + j + 1 := by
  induction us with
  | nil => intro i j h; exact absurd h (by simp [userStatsFrom])
  | cons u tl ih =>
    intro i j h
    cases j with
    | zero => rfl
    | succ j =>
      have h2 : j < (userStatsFrom (i + 1) tl).length := by
        simpa [userStatsFrom] using h
      have hih := ih (i + 1) j h2
      have hget : ((userStatsFrom i (u :: tl)).get ⟨j + 1, h⟩) =
          (userStatsFrom (i + 1) tl).get ⟨j, h2⟩ := rfl
      rw [hget, hih]
      omega

/-- Bridge from the executable rank check to the indexed rank property. -/
theorem ranksFrom_get (es : List Entry) :
    ∀ (n : Nat), ranksFrom n es = true →
      ∀ (j : Nat) (h : j < es.length), (es.get ⟨j, h⟩).rank = n + j := by
  induction es with
  | nil => intro n _ j h; exact absurd h (by simp)
  | cons e tl ih =>
    intro n hr j h
    simp only [ranksFrom, Bool.and_eq_true, beq_iff_eq] at hr
    cases j with
    | zero => simpa using hr.1
    | succ j =>
      have h2 : j < tl.length := by simpa using h
      have hih := ih (n + 1) hr.2 j h2
      have hget : ((e :: tl).get ⟨j + 1, h⟩) = tl.get ⟨j, h2⟩ := rfl
      rw [hget, hih]
      omega

/-- A list passing `ranksFrom 1` has consecutive 1-based ranks. -/
theorem rankedEntries_of_ranksFrom (es : List Entry) (hr : ranksFrom 1 es = true) :
    rankedEntries es := by
  intro j h
  have := ranksFrom_get es 1 hr j h
  rw [this]
  omega

/-- The score fallback code never sets an error status. -/
theorem scoreFallback_status (ss : ScoreStore) : (scoreFallback ss).status = 200 := by
  cases hu : ss.usersCall with
  | exn => simp [scoreFallback, hu]
  | resp st users =>
    by_cases hst : st = 200 <;> simp [scoreFallback, hu, hst]

/-- `GET /api/leaderboard/score` always responds with HTTP 200. -/
theorem score_status (ss : ScoreStore) : (get_score_leaderboard ss).status = 200 := by
  cases hlb : ss.lbCall with
  | exn => simp [get_score_leaderboard, hlb]
  | resp st rows =>
    by_cases hst : st = 200
    · cases henr : enrichEntries ss.userCall rows with
      | error e0 => simp [get_score_leaderboard, hlb, hst, henr]
      | ok es =>
        cases es with
        | nil => simp [get_score_leaderboard, hlb, hst, henr, scoreFallback_status ss]
        | cons e tl => simp [get_score_leaderboard, hlb, hst, henr]
    · simp [get_score_leaderboard, hlb, hst, scoreFallback_status ss]

/-- `GET /api/leaderboard/speed` always responds with HTTP 200. -/
theorem speed_status (sp : SpeedStore) : (get_speed_leaderboard sp).status = 200 := by
  cases hlb : sp.lbCall with
  | exn => simp [get_speed_leaderboard, hlb]
  | resp st rows =>
    by_cases hst : st = 200
    · cases henr : enrichEntries sp.userCall rows with
      | error e0 => simp [get_speed_leaderboard, hlb, hst, henr]
      | ok es =>
        cases es with
        | nil => simp [get_speed_leaderboard, hlb, hst, henr]
        | cons e tl => simp [get_speed_leaderboard, hlb, hst, henr]
    · simp [get_speed_leaderboard, hlb, hst]

/-- The speed endpoint's entries list is non-empty on every path. -/
theorem speed_entries_ne (sp : SpeedStore) : (get_speed_leaderboard sp).entries ≠ [] := by
  cases hlb : sp.lbCall with
  | exn => simp [get_speed_leaderboard, hlb, demoSpeedErrEntries]
  | resp st rows =>
    by_cases hst : st = 200
    · cases henr : enrichEntries sp.userCall rows with
      | error e0 => simp [get_speed_leaderboard, hlb, hst, henr, demoSpeedErrEntries]
      | ok es =>
        cases es with
        | nil => simp [get_speed_leaderboard, hlb, hst, henr, demoSpeedEntries]
        | cons e tl => simp [get_speed_leaderboard, hlb, hst, henr]
    · simp [get_speed_leaderboard, hlb, hst, demoSpeedEntries]

/-- The score fallback code returns non-empty entries unless the `users`
query returned 200 with an empty list. -/
theorem scoreFallback_entries_cases (ss : ScoreStore) :
    (scoreFallback ss).entries ≠ [] ∨
      ((scoreFallback ss).source = "user_stats" ∧ ss.usersCall = Outcome.resp 200 []) := by
  cases hu : ss.usersCall with
  | exn => left; simp [scoreFallback, hu, demoScoreErrEntries]
  | resp st users =>
    by_cases hst : st = 200
    · cases users with
      | nil => right; subst hst; simp [scoreFallback, hu]
      | cons u tl => left; simp [scoreFallback, hu, hst, scoreUserStatsEntries, userStatsFrom]
    · left; simp [scoreFallback, hu, hst, demoScoreEntries]

/-- The score endpoint returns non-empty entries unless the fallback tier
served an empty `users` list. -/
theorem score_entries_cases (ss : ScoreStore) :
    (get_score_leaderboard ss).entries ≠ [] ∨
      ((get_score_leaderboard ss).source = "user_stats" ∧ ss.usersCall = Outcome.resp 200 []) := by
  cases hlb : ss.lbCall with
  | exn => left; simp [get_score_leaderboard, hlb, demoScoreErrEntries]
  | resp st rows =>
    by_cases hst : st = 200
    · cases henr : enrichEntries ss.userCall rows with
      | error e0 => left; simp [get_score_leaderboard, hlb, hst, henr, demoScoreErrEntries]
      | ok es =>
        cases es with
        | nil =>
          have he : get_score_leaderboard ss = scoreFallback ss := by
            simp [get_score_leaderboard, hlb, hst, henr]
          rw [he]
          exact scoreFallback_entries_cases ss
        | cons e tl => left; simp [get_score_leaderboard, hlb, hst, henr]
    · have he : get_score_leaderboard ss = scoreFallback ss := by
        simp [get_score_leaderboard, hlb, hst]
      rw [he]
      exact scoreFallback_entries_cases ss

/-- The score fallback code's source tag follows `scoreFallbackSource`. -/
theorem scoreFallback_source (ss : ScoreStore) :
    (scoreFallback ss).source = scoreFallbackSource ss := by
  cases hu : ss.usersCall with
  | exn => simp [scoreFallback, scoreFallbackSource, hu]
  | resp st users =>
    by_cases hst : st = 200 <;> simp [scoreFallback, scoreFallbackSource, hu, hst]

/-- The score endpoint's source tag follows `scoreSource`. -/
theorem score_source_tier (ss : ScoreStore) :
    (get_score_leaderboard ss).source = scoreSource ss := by
  cases hlb : ss.lbCall with
  | exn => simp [get_score_leaderboard, scoreSource, hlb]
  | resp st rows =>
    by_cases hst : st = 200
    · cases henr : enrichEntries ss.userCall rows with
      | error e0 => simp [get_score_leaderboard, scoreSource, hlb, hst, henr]
      | ok es =>
        cases es with
        | nil =>
          simpa [get_score_leaderboard, scoreSource, hlb, hst, henr] using
            scoreFallback_source ss
        | cons e tl => simp [get_score_leaderboard, scoreSource, hlb, hst, henr]
    · simpa [get_score_leaderboard, scoreSource, hlb, hst] using scoreFallback_source ss

/-- The speed endpoint's source tag follows `speedSource`. -/
theorem speed_source_tier (sp : SpeedStore) :
    (get_speed_leaderboard sp).source = speedSource sp := by
  cases hlb : sp.lbCall with
  | exn => simp [get_speed_leaderboard, speedSource, hlb]
  | resp st rows =>
    by_cases hst : st = 200
    · cases henr : enrichEntries sp.userCall rows with
      | error e0 => simp [get_speed_leaderboard, speedSource, hlb, hst, henr]
      | ok es =>
        cases es with
        | nil => simp [get_speed_leaderboard, speedSource, hlb, hst, henr]
        | cons e tl => simp [get_speed_leaderboard, speedSource, hlb, hst, henr]
    · simp [get_speed_leaderboard, speedSource, hlb, hst]

/-- The score fallback code's entries carry consecutive ranks. -/
theorem scoreFallback_ranked (ss : ScoreStore) : rankedEntries (scoreFallback ss).entries := by
  cases hu : ss.usersCall with
  | exn =>
    have he : (scoreFallback ss).entries = demoScoreErrEntries := by simp [scoreFallback, hu]
    rw [he]
    exact rankedEntries_of_ranksFrom _ rfl
  | resp st users =>
    by_cases hst : st = 200
    · have he : (scoreFallback ss).entries = scoreUserStatsEntries users := by
        simp [scoreFallback, hu, hst]
      rw [he]
      intro j h
      have := userStatsFrom_rank users 0 j h
      simpa using this
    · have he : (scoreFallback ss).entries = demoScoreEntries := by
        simp [scoreFallback, hu, hst]
      rw [he]
      exact rankedEntries_of_ranksFrom _ rfl

/-- The score endpoint's entries carry consecutive ranks on every path. -/
theorem score_entries_ranked (ss : ScoreStore) :
    rankedEntries (get_score_leaderboard ss).entries := by
  cases hlb : ss.lbCall with
  | exn =>
    have he : (get_score_leaderboard ss).entries = demoScoreErrEntries := by
      simp [get_score_leaderboard, hlb]
    rw [he]
    exact rankedEntries_of_ranksFrom _ rfl
  | resp st rows =>
    by_cases hst : st = 200
    · cases henr : enrichEntries ss.userCall rows with
      | error e0 =>
        have he : (get_score_leaderboard ss).entries = demoScoreErrEntries := by
          simp [get_score_leaderboard, hlb, hst, henr]
        rw [he]
        exact rankedEntries_of_ranksFrom _ rfl
      | ok es =>
        cases es with
        | nil =>
          have he : get_score_leaderboard ss = scoreFallback ss := by
            simp [get_score_leaderboard, hlb, hst, henr]
          rw [he]
          exact scoreFallback_ranked ss
        | cons e tl =>
          have he : (get_score_leaderboard ss).entries = e :: tl := by
            simp [get_score_leaderboard, hlb, hst, henr]
          rw [he]
          intro j h
          have := enrichFrom_rank ss.userCall rows 0 (e :: tl) henr j h
          simpa using this
    · have he : get_score_leaderboard ss = scoreFallback ss := by
        simp [get_score_leaderboard, hlb, hst]
      rw [he]
      exact scoreFallback_ranked ss

/-- The speed endpoint's entries carry consecutive ranks on every path. -/
theorem speed_entries_ranked (sp : SpeedStore) :
    rankedEntries (get_speed_leaderboard sp).entries := by
  cases hlb : sp.lbCall with
  | exn =>
    have he : (get_speed_leaderboard sp).entries = demoSpeedErrEntries := by
      simp [get_speed_leaderboard, hlb]
    rw [he]
    exact rankedEntries_of_ranksFrom _ rfl
  | resp st rows =>
    by_cases hst : st = 200
    · cases henr : enrichEntries sp.userCall rows with
      | error e0 =>
        have he : (get_speed_leaderboard sp).entries = demoSpeedErrEntries := by
          simp [get_speed_leaderboard, hlb, hst, henr]
        rw [he]
        exact rankedEntries_of_ranksFrom _ rfl
      | ok es =>
        cases es with
        | nil =>
          have he : (get_speed_leaderboard sp).entries = demoSpeedEntries := by
            simp [get_speed_leaderboard, hlb, hst, henr]
          rw [he]
          exact rankedEntries_of_ranksFrom _ rfl
        | cons e tl =>
          have he : (get_speed_leaderboard sp).entries = e :: tl := by
            simp [get_speed_leaderboard, hlb, hst, henr]
          rw [he]
          intro j h
          have := enrichFrom_rank sp.userCall rows 0 (e :: tl) henr j h
          simpa using this
    · have he : (get_speed_leaderboard sp).entries = demoSpeedEntries := by
        simp [get_speed_leaderboard, hlb, hst]
      rw [he]
      exact rankedEntries_of_ranksFrom _ rfl

/-! ## Claim theorems -/

/-- Claim C1, counterexample: the score endpoint can return an EMPTY
`entries` list.  When the tier-1 `leaderboard_entries` query returns 200
with no rows and the fallback `users` query returns 200 with no rows, the
handler returns `{"entries": [], "type": "score", "source": "user_stats"}`:
the `source = "user_stats"` branch returns whatever list it built without
checking it for emptiness, so the claimed "non-empty `entries` list" fails
at this input. -/
theorem score_leaderboard_empty_entries_cex :
    (get_score_leaderboard emptyTiersScoreStore).entries = [] ∧
    (get_score_leaderboard emptyTiersScoreStore).source = "user_stats" :=
  ⟨rfl, rfl⟩

/-- Claim C1 (amended): for every outcome of the outbound store calls, both
leaderboard endpoints respond with HTTP 200 (never an error response); the
speed endpoint's `entries` list is always non-empty; and the score
endpoint's `entries` list is non-empty except when the request fell through
to the `user_stats` tier and the `users` query returned 200 with an empty
list. -/
theorem leaderboard_entries_nonempty_unless_empty_user_stats
    (ss : ScoreStore) (sp : SpeedStore) :
    (get_score_leaderboard ss).status = 200 ∧
    (get_speed_leaderboard sp).status = 200 ∧
    (get_speed_leaderboard sp).entries ≠ [] ∧
    ((get_score_leaderboard ss).entries ≠ [] ∨
      ((get_score_leaderboard ss).source = "user_stats" ∧
        ss.usersCall = Outcome.resp 200 [])) :=
  ⟨score_status ss, speed_status sp, speed_entries_ne sp, score_entries_cases ss⟩

/-- Claim C2, counterexample: the claimed three-tier order fails on both
endpoints.  For the score endpoint, when the tier-1 query raises (store
unreachable) the handler lands in its `except` clause and returns the demo
entries even though the `users` fallback query would have returned 200 with
one row (per the claim, tier 2 should have produced a `users`-derived
ranking).  For the speed endpoint, a 200-with-no-rows tier-1 outcome goes
straight to the hardcoded demo entries: the handler has no `users`-derived
second tier at all. -/
theorem leaderboard_tier_skip_cex :
    (get_score_leaderboard exnTier1ScoreStore).source = "demo" ∧
    (get_score_leaderboard exnTier1ScoreStore).entries = demoScoreErrEntries ∧
    (get_score_leaderboard exnTier1ScoreStore).entries ≠
      scoreUserStatsEntries [sampleUserRow] ∧
    (get_speed_leaderboard emptyTier1SpeedStore).source = "demo" ∧
    (get_speed_leaderboard emptyTier1SpeedStore).entries = demoSpeedEntries := by
  refine ⟨rfl, rfl, ?_, rfl, rfl⟩
  decide

/-- Claim C2 (amended): the score endpoint degrades `database` →
`user_stats` → `demo`, but the `user_stats` tier is consulted only when the
tier-1 query RESPONDS and yields no usable entries (non-200, no rows, or no
rows after enrichment); any raised call goes straight to the demo entries,
and a non-200 `users` fallback response also yields demo.  The speed
endpoint degrades `database` → `demo` with no `users`-derived tier.  Both
facts are stated as the source-tag characterizations `scoreSource` and
`speedSource`, which spell out this tier order. -/
theorem leaderboard_source_tiering (ss : ScoreStore) (sp : SpeedStore) :
    (get_score_leaderboard ss).source = scoreSource ss ∧
    (get_speed_leaderboard sp).source = speedSource sp :=
  ⟨score_source_tier ss, speed_source_tier sp⟩

/-- Claim C3: the `/health` response's `database` field is "disconnected"
when the store probe raises, "connected" when it returns status 200, and
"error" for every other returned status. -/
theorem health_check_database_field (st : Nat) (h : st ≠ 200) :
    (health_check Outcome.exn).database = "disconnected" ∧
    (health_check (Outcome.resp 200 ())).database = "connected" ∧
    (health_check (Outcome.resp st ())).database = "error" := by
  refine ⟨rfl, rfl, ?_⟩
  simp [health_check, h]

/-- Witness for C3 at the concrete non-200 status 503. -/
theorem health_check_database_field_witness :
    (health_check Outcome.exn).database = "disconnected" ∧
    (health_check (Outcome.resp 200 ())).database = "connected" ∧
    (health_check (Outcome.resp 503 ())).database = "error" :=
  health_check_database_field 503 (by decide)

/-- Claim C4: when the signup existence check returns 200 with a non-empty
user list (the email is already present), the response is a failure
envelope with HTTP 400 and the handler issues no write at all - in
particular no `POST /users`, so no duplicate user is created. -/
theorem signup_existing_email_rejected (d : SignupData) (s : SignupStore)
    (u : SUser) (us : List SUser) (h : s.checkCall = Outcome.resp 200 (u :: us)) :
    (signup d s).fst.success = false ∧ (signup d s).fst.status = 400 ∧
    (signup d s).snd = [] := by
  simp [signup, h]

/-- Witness for C4 at a concrete request and store. -/
theorem signup_existing_email_rejected_witness :
    (signup sampleSignupData existingUserSignupStore).fst.success = false ∧
    (signup sampleSignupData existingUserSignupStore).fst.status = 400 ∧
    (signup sampleSignupData existingUserSignupStore).snd = [] :=
  signup_existing_email_rejected sampleSignupData existingUserSignupStore
    { id := some "u-1" } [] rfl

/-- Claim C5: for every request body and every outcome of the session
patch (success, non-2xx, or raise), `save-progress` returns the success
envelope `{"success": true, "message": "Progress saved"}` with HTTP 200. -/
theorem save_progress_always_success (d : ProgressData) (o : Outcome Unit) :
    save_progress d o = { success := true, message := "Progress saved", status := 200 } := by
  cases o <;> rfl

/-- Claim C6: a login request whose body has a missing, null, or empty
email gets the failure envelope with HTTP 400, and the handler issues no
outbound call (the call trace is empty). -/
theorem login_missing_email_no_calls (d : LoginData) (s : LoginStore)
    (h : falsyEmail d.email = true) :
    login d s = ({ success := false, status := 400, user := none,
                   errorMsg := some "Email is required" }, []) := by
  simp [login, h]

/-- Witness for C6 at a concrete body with no email. -/
theorem login_missing_email_no_calls_witness :
    login { email := none }
        { findCall := Outcome.resp 200 [sampleLUser], patchCall := Outcome.exn } =
      ({ success := false, status := 400, user := none,
         errorMsg := some "Email is required" }, []) :=
  login_missing_email_no_calls { email := none }
    { findCall := Outcome.resp 200 [sampleLUser], patchCall := Outcome.exn } rfl

/-- Claim C7: failure of an optional side write never affects the primary
response.  `complete_game` returns its success envelope - with the score,
time, and `leaderboard_entry` echo - whatever the outcomes of the
user-stats patch, the leaderboard insert, and the session patch; and for a
login that finds its user, the response is the success envelope whatever
the outcome of the `last_login` patch. -/
theorem side_write_failures_ignored (d : CompleteData) (now : String)
    (userPatch lbPost sessionPatch : Outcome Unit)
    (ld : LoginData) (u : LUser) (us : List LUser) (pc : Outcome Unit)
    (he : falsyEmail ld.email = false) :
    complete_game d now userPatch lbPost sessionPatch =
      { success := true, message := "Game completed successfully!",
        score := d.total_score.getD 1000, time := d.completion_time.getD 300,
        leaderboard_entry := mkLeaderboardEntry d now, status := 200 } ∧
    (login ld { findCall := Outcome.resp 200 (u :: us), patchCall := pc }).fst =
      { success := true, status := 200, user := some u, errorMsg := none } := by
  constructor
  · cases userPatch <;> cases lbPost <;> cases sessionPatch <;> rfl
  · cases pc <;> simp [login, he]

/-- Witness for C7 at a concrete body with every side write failing in a
different way. -/
theorem side_write_failures_ignored_witness :
    complete_game sampleCompleteData "t0" Outcome.exn (Outcome.resp 500 ()) Outcome.exn =
      { success := true, message := "Game completed successfully!",
        score := sampleCompleteData.total_score.getD 1000,
        time := sampleCompleteData.completion_time.getD 300,
        leaderboard_entry := mkLeaderboardEntry sampleCompleteData "t0", status := 200 } ∧
    (login sampleLoginData
        { findCall := Outcome.resp 200 [sampleLUser], patchCall := Outcome.exn }).fst =
      { success := true, status := 200, user := some sampleLUser, errorMsg := none } :=
  side_write_failures_ignored sampleCompleteData "t0" Outcome.exn (Outcome.resp 500 ())
    Outcome.exn sampleLoginData sampleLUser [] Outcome.exn rfl

/-- Claim C8, counterexample: with the store environment variables absent
every outbound call raises (`requests` rejects the schemeless URL), and
`GET /api/users` - a data endpoint - then returns the error body
`{"error": str(e)}` with HTTP 500 rather than demo or static content. -/
theorem get_users_unconfigured_error_cex :
    get_users Outcome.exn = UsersResult.exnError ∧
    usersStatus (get_users Outcome.exn) = 500 ∧
    usersIsError (get_users Outcome.exn) = true :=
  ⟨rfl, rfl, rfl⟩

/-- Claim C8 (amended): with no store configured (every outbound call
raises), startup does not fail and the endpoints with fallback paths serve
demo or static content - both leaderboards serve demo entries with HTTP
200, `/api/game/rooms` serves its static rooms, `/health` stays healthy
reporting `database = "disconnected"`, and `save-progress` still returns
success - but the plain store-proxy endpoint `GET /api/users` surfaces a
500 error envelope. -/
theorem unconfigured_store_demo_static :
    (get_score_leaderboard noStoreScoreStore).source = "demo" ∧
    (get_score_leaderboard noStoreScoreStore).status = 200 ∧
    (get_score_leaderboard noStoreScoreStore).entries = demoScoreErrEntries ∧
    (get_speed_leaderboard noStoreSpeedStore).source = "demo" ∧
    (get_speed_leaderboard noStoreSpeedStore).status = 200 ∧
    (get_speed_leaderboard noStoreSpeedStore).entries = demoSpeedErrEntries ∧
    get_rooms.length = 3 ∧
    health_check Outcome.exn =
      { status := "healthy", quantum_engine := "operational",
        database := "disconnected", websockets := "active" } ∧
    save_progress sampleProgressData Outcome.exn =
      { success := true, message := "Progress saved", status := 200 } ∧
    usersStatus (get_users Outcome.exn) = 500 :=
  ⟨rfl, rfl, rfl, rfl, rfl, rfl, rfl, rfl, rfl, rfl⟩

/-- Claim C9: in every leaderboard response, from whichever tier it was
produced, the entry at 0-based index `i` carries `rank = i + 1`. -/
theorem leaderboard_ranks_consecutive (ss : ScoreStore) (sp : SpeedStore) (i j : Nat)
    (hi : i < (get_score_leaderboard ss).entries.length)
    (hj : j < (get_speed_leaderboard sp).entries.length) :
    ((get_score_leaderboard ss).entries.get ⟨i, hi⟩).rank = i + 1 ∧
    ((get_speed_leaderboard sp).entries.get ⟨j, hj⟩).rank = j + 1 :=
  ⟨score_entries_ranked ss i hi, speed_entries_ranked sp j hj⟩

/-- Witness for C9 at concrete stores (the demo tier) and indices 0 and 1. -/
theorem leaderboard_ranks_consecutive_witness :
    ((get_score_leaderboard noStoreScoreStore).entries.get ⟨0, by decide⟩).rank = 0 + 1 ∧
    ((get_speed_leaderboard noStoreSpeedStore).entries.get ⟨1, by decide⟩).rank = 1 + 1 :=
  leaderboard_ranks_consecutive noStoreScoreStore noStoreSpeedStore 0 1 (by decide) (by decide)

/-- Claim C10: the `GET /` response reports `supabase_connected = true`
unconditionally - `root` is a constant body that consults neither the
configuration flags nor the store. -/
theorem root_supabase_connected_always_true :
    root.supabase_connected = true ∧
    root = { message := "Quantum Quest Backend is running!", version := "1.0.0",
             supabase_connected := true } :=
  ⟨rfl, rfl⟩
